import Mathlib

/-!
Shallow embedding of `tomviz/python/setup.py` (the packaging manifest of the
tomviz external pipeline package) and verification of its dependency and
entry-point contract.

The manifest is pure declarative data: a `setup(...)` call with metadata
fields, `install_requires`, `extras_require` and `entry_points`.  We embed it
as a Lean structure populated with exactly the literals of the source, and add
small executable helpers modelling the installer-side reading of that data
(entry-point string syntax `name = module:attr`, PEP-508 requirement names,
direct-URL requirements, and the set of requirements pulled in by an install
with a given extra).
-/

namespace TomvizSetup

/-- `jsonpatch_uri` from `setup.py` line 3-4: the direct-URL requirement for
the patched JSON-patch fork. -/
def jsonpatch_uri : String :=
  "jsonpatch@https://github.com/cjh1/python-json-patch/archive/tomviz.zip"

/-- The fields of the `setup(...)` call that the claims are about.
`extras_require` is an association list (Python dict, insertion order kept);
`console_scripts` is the list under the `'console_scripts'` key of
`entry_points`. -/
structure SetupManifest where
  name : String
  version : String
  description : String
  author : String
  author_email : String
  url : String
  license : String
  classifiers : List String
  install_requires : List String
  extras_require : List (String × List String)
  console_scripts : List String
  deriving Repr, DecidableEq

/-- The manifest exactly as written in `setup.py`. -/
def setupManifest : SetupManifest where
  name := "tomviz-pipeline"
  version := "0.0.1"
  description := "Tomviz python external pipeline execution infrastructure."
  author := "Kitware, Inc."
  author_email := "kitware@kitware.com"
  url := "https://www.tomviz.org/"
  license := "BSD 3-Clause"
  classifiers :=
    [ "Development Status :: 3 - Alpha"
    , "License :: OSI Approved :: BSD 3-Clause"
    , "Operating System :: OS Independent"
    , "Programming Language :: Python"
    , "Programming Language :: Python :: 2"
    , "Programming Language :: Python :: 2.7"
    , "Programming Language :: Python :: 3"
    , "Programming Language :: Python :: 3.5" ]
  install_requires := ["tqdm", "h5py", "numpy", "click", "scipy"]
  extras_require :=
    [ ("interactive", [jsonpatch_uri, "marshmallow"])
    , ("itk", ["itk"])
    , ("pyfftw", ["pyfftw"]) ]
  console_scripts := ["tomviz-pipeline = tomviz.cli:main"]

/-! ### Installer-side readings of the manifest data -/

/-- Strip leading and trailing spaces from a character list. -/
def stripSpaces (l : List Char) : List Char :=
  ((l.dropWhile (· == ' ')).reverse.dropWhile (· == ' ')).reverse

/-- The characters before the first occurrence of `c`. -/
def beforeChar (c : Char) (l : List Char) : List Char :=
  l.takeWhile (· != c)

/-- The characters after the first occurrence of `c` (empty if absent). -/
def afterChar (c : Char) (l : List Char) : List Char :=
  (l.dropWhile (· != c)).drop 1

/-- The command name of a console-script entry point `name = module:attr`:
the stripped text before the `=`. -/
def entryPointName (ep : String) : String :=
  (stripSpaces (beforeChar '=' ep.data)).asString

/-- The target (`module:attr`) of a console-script entry point: the stripped
text after the `=`. -/
def entryPointTarget (ep : String) : String :=
  (stripSpaces (afterChar '=' ep.data)).asString

/-- The module part of a console-script entry point target. -/
def entryPointModule (ep : String) : String :=
  (beforeChar ':' (entryPointTarget ep).data).asString

/-- The callable (attribute) part of a console-script entry point target. -/
def entryPointCallable (ep : String) : String :=
  (afterChar ':' (entryPointTarget ep).data).asString

/-- Characters allowed in a PEP-508 distribution name (plus the dot). -/
def isNameChar (c : Char) : Bool :=
  c.isAlphanum || c == '-' || c == '_' || c == '.'

/-- The distribution name of a requirement string: its longest prefix of
name characters (everything before any `@ url`, version specifier, extras
bracket or environment marker). -/
def requirementName (req : String) : String :=
  (req.data.takeWhile isNameChar).asString

/-- A requirement is a bare name when it carries no version constraint,
URL, extras or marker: it consists of name characters only. -/
def isBareName (req : String) : Bool :=
  req.data == req.data.takeWhile isNameChar

/-- A requirement is a direct-URL requirement when it has the PEP-508
`name @ url` form, i.e. an `@` right after the distribution name. -/
def isDirectURL (req : String) : Bool :=
  (req.data.dropWhile isNameChar).headD ' ' == '@'

/-- The requirements installed for a given set of requested extras: the
unconditional `install_requires` followed by the lists of the requested
extras, in manifest order. -/
def requirementsFor (m : SetupManifest) (extras : List String) : List String :=
  m.install_requires ++
    (m.extras_require.filterMap fun p =>
      if p.1 ∈ extras then some p.2 else none).flatten

/-- The requirement lists of the manifest: the base list and each extra's
list. -/
def allRequirementLists (m : SetupManifest) : List (List String) :=
  m.install_requires :: m.extras_require.map Prod.snd

/-- The distribution-name lists corresponding to `allRequirementLists`. -/
def allNameLists (m : SetupManifest) : List (List String) :=
  (allRequirementLists m).map (List.map requirementName)

end TomvizSetup

namespace TomvizSetup

/-! ### The claims -/

/-- C1: the manifest registers exactly one console script, named
`tomviz-pipeline`, whose target is a callable named `main`; no other console
command is declared. -/
theorem console_script_unique_tomviz_pipeline_main :
    setupManifest.console_scripts.length = 1 ∧
    setupManifest.console_scripts.map entryPointName = ["tomviz-pipeline"] ∧
    setupManifest.console_scripts.map entryPointCallable = ["main"] := by
  decide

/-- C2: `install_requires` is exactly the five packages `tqdm`, `h5py`,
`numpy`, `click`, `scipy`, each a bare name with no version constraint. -/
theorem install_requires_exactly_five_unconstrained :
    setupManifest.install_requires = ["tqdm", "h5py", "numpy", "click", "scipy"] ∧
    setupManifest.install_requires.all isBareName = true := by
  decide

/-- C3: the `interactive` extra's list is exactly the direct-URL JSON-patch
fork requirement and the schema library `marshmallow`, so requesting it adds
exactly these two requirements beyond the base install. -/
theorem interactive_extra_exactly_jsonpatch_and_marshmallow :
    setupManifest.extras_require.lookup "interactive"
      = some [jsonpatch_uri, "marshmallow"] ∧
    requirementsFor setupManifest ["interactive"]
      = setupManifest.install_requires ++ [jsonpatch_uri, "marshmallow"] := by
  decide

/-- C4: the `itk` extra's list is exactly the single package `itk`, so
requesting it adds exactly the ITK binding beyond the base install. -/
theorem itk_extra_exactly_itk :
    setupManifest.extras_require.lookup "itk" = some ["itk"] ∧
    requirementsFor setupManifest ["itk"]
      = setupManifest.install_requires ++ ["itk"] := by
  decide

/-- C5: the extras mapping has exactly the three keys `interactive`, `itk`,
`pyfftw`, and the `pyfftw` extra's list is exactly the single package
`pyfftw`. -/
theorem extras_keys_and_pyfftw :
    setupManifest.extras_require.map Prod.fst = ["interactive", "itk", "pyfftw"] ∧
    setupManifest.extras_require.lookup "pyfftw" = some ["pyfftw"] := by
  decide

/-- C6: the license field is the string `BSD 3-Clause`, and the classifiers
declare support for Python 2.7 and for Python 3. -/
theorem license_and_python_classifiers :
    setupManifest.license = "BSD 3-Clause" ∧
    "Programming Language :: Python :: 2.7" ∈ setupManifest.classifiers ∧
    "Programming Language :: Python :: 3" ∈ setupManifest.classifiers := by
  decide

/-- C7: extras only add requirements: for every extra name declared in the
extras mapping, every base requirement is still among the requirements of an
install with that extra. -/
theorem extras_monotone (extra : String)
    (h : extra ∈ setupManifest.extras_require.map Prod.fst) :
    ∀ r ∈ setupManifest.install_requires,
      r ∈ requirementsFor setupManifest [extra] := by
  intro r hr
  exact List.mem_append_left _ hr

/-- Witness for C7 at the concrete extra `itk`. -/
theorem extras_monotone_witness :
    "scipy" ∈ requirementsFor setupManifest ["itk"] :=
  extras_monotone "itk" (by decide) "scipy" (by decide)

/-- C8: the single entry-point string is exactly
`tomviz-pipeline = tomviz.cli:main`, so the backing module is `tomviz.cli`
and the callable is `main`. -/
theorem entry_point_string_fixed :
    setupManifest.console_scripts = ["tomviz-pipeline = tomviz.cli:main"] ∧
    entryPointModule "tomviz-pipeline = tomviz.cli:main" = "tomviz.cli" ∧
    entryPointCallable "tomviz-pipeline = tomviz.cli:main" = "main" := by
  decide

/-- C9: by distribution name, the base list and the three extras' lists are
pairwise disjoint, and each list has no duplicates. -/
theorem requirement_lists_disjoint_nodup :
    (allNameLists setupManifest).Pairwise (fun a b => ∀ x ∈ a, x ∉ b) ∧
    ∀ l ∈ allNameLists setupManifest, l.Nodup := by
  decide

/-- C10: the patched JSON-patch requirement of the `interactive` extra is the
exact direct-URL string pinning the fork archive, with distribution name
`jsonpatch`, not a PyPI name-and-version specifier. -/
theorem jsonpatch_requirement_is_direct_url :
    jsonpatch_uri
      = "jsonpatch@https://github.com/cjh1/python-json-patch/archive/tomviz.zip" ∧
    requirementName jsonpatch_uri = "jsonpatch" ∧
    isDirectURL jsonpatch_uri = true ∧
    isBareName jsonpatch_uri = false := by
  decide

end TomvizSetup
